import Mathlib

/-!
# SilverVille session/progression engine — verification development

A shallow embedding of the SilverVille wellness game's core logic:

* `calcVillageLevel` — the level engine (`src/src/store/gameStore.ts`)
* the `GameState` ledger and its actions (`src/src/store/gameStore.ts`)
* `selectHealthScore` — the composite daily score selector
* `calcFertilizer` / `calcLandscapeItems` — reward mappings
  (`src/src/services/healthService.ts`)
* milestone scheduling and quiz dispensing
  (`src/src/services/pedometerService.ts`)
* the walk-session reward guard (`src/app/(tabs)/walk.tsx`)
* TTS completion/error callback handling
  (`src/app/(tabs)/cafe.tsx`, `src/src/screens/CafeScreen.tsx`)

JavaScript numbers are modelled as `ℤ` where the program only ever holds
integers and as `ℚ` where fractional values occur (diet scores, ratios);
`Math.round` is modelled as `jsRound q = ⌊q + 1/2⌋`, which is the JS
semantics for the values in range here.
-/

/-- JavaScript `Math.round`: round half toward positive infinity. -/
def jsRound (q : ℚ) : ℤ := ⌊q + 1/2⌋

-- ─────────────────────────────────────────────
-- Level engine (gameStore.ts)
-- ─────────────────────────────────────────────

/-- `LEVEL_EXP_THRESHOLDS` from gameStore.ts: a record keyed by level,
with `Infinity` (here `⊤`) at key 10; absent keys give `none`. -/
def LEVEL_EXP_THRESHOLDS : Nat → Option (WithTop ℤ)
  | 1 => some ((100 : ℤ) : WithTop ℤ)
  | 2 => some ((250 : ℤ) : WithTop ℤ)
  | 3 => some ((500 : ℤ) : WithTop ℤ)
  | 4 => some ((900 : ℤ) : WithTop ℤ)
  | 5 => some ((1500 : ℤ) : WithTop ℤ)
  | 6 => some ((2400 : ℤ) : WithTop ℤ)
  | 7 => some ((3700 : ℤ) : WithTop ℤ)
  | 8 => some ((5500 : ℤ) : WithTop ℤ)
  | 9 => some ((8000 : ℤ) : WithTop ℤ)
  | 10 => some ⊤
  | _ => none

/-- The loop condition `exp >= (LEVEL_EXP_THRESHOLDS[lv - 1] ?? 0)`. -/
def expMeets (exp : ℤ) (lv : Nat) : Prop :=
  ((LEVEL_EXP_THRESHOLDS (lv - 1)).getD ((0 : ℤ) : WithTop ℤ)) ≤ (exp : WithTop ℤ)

instance (exp : ℤ) (lv : Nat) : Decidable (expMeets exp lv) := by
  unfold expMeets; infer_instance

/-- The `for (let lv = 1; lv <= 10; lv++) { if … level = lv; else break; }`
loop of `calcVillageLevel`, over the list of visited `lv` values. -/
def calcLoop (exp : ℤ) : List Nat → Nat → Nat
  | [], level => level
  | lv :: rest, level =>
    if expMeets exp lv then calcLoop exp rest lv else level

/-- `calcVillageLevel` from gameStore.ts. -/
def calcVillageLevel (exp : ℤ) : Nat :=
  min (calcLoop exp (List.range' 1 10) 1) 10

lemma expMeets_mono {e1 e2 : ℤ} (h : e1 ≤ e2) {lv : Nat}
    (hm : expMeets e1 lv) : expMeets e2 lv :=
  le_trans hm (WithTop.coe_le_coe.mpr h)

/-- The loop never returns below its accumulator when the remaining levels
dominate it. -/
lemma calcLoop_le (e : ℤ) (lvs : List Nat) (level : Nat)
    (hp : List.Pairwise (· ≤ ·) (level :: lvs)) :
    level ≤ calcLoop e lvs level := by
  induction lvs generalizing level with
  | nil => exact le_refl level
  | cons lv rest ih =>
      rw [List.pairwise_cons] at hp
      obtain ⟨hhead, htail⟩ := hp
      by_cases hm : expMeets e lv
      · simp only [calcLoop, if_pos hm]
        exact le_trans (hhead lv (List.mem_cons_self lv rest)) (ih lv htail)
      · simp only [calcLoop, if_neg hm]
        exact le_refl level

/-- The loop result is monotone in the experience argument. -/
lemma calcLoop_mono {e1 e2 : ℤ} (h : e1 ≤ e2) (lvs : List Nat)
    (level : Nat) (hp : List.Pairwise (· ≤ ·) (level :: lvs)) :
    calcLoop e1 lvs level ≤ calcLoop e2 lvs level := by
  induction lvs generalizing level with
  | nil => exact le_refl level
  | cons lv rest ih =>
      rw [List.pairwise_cons] at hp
      obtain ⟨hhead, htail⟩ := hp
      by_cases hm1 : expMeets e1 lv
      · have hm2 := expMeets_mono h hm1
        simp only [calcLoop, if_pos hm1, if_pos hm2]
        exact ih lv htail
      · simp only [calcLoop, if_neg hm1]
        by_cases hm2 : expMeets e2 lv
        · simp only [if_pos hm2]
          exact le_trans (hhead lv (List.mem_cons_self lv rest))
            (calcLoop_le e2 rest lv htail)
        · simp only [if_neg hm2]
          exact le_refl level

-- ─────────────────────────────────────────────
-- Progression ledger (gameStore.ts)
-- ─────────────────────────────────────────────

/-- A walk-quiz history entry (gameStore.ts `QuizRecord`). -/
structure QuizRecord where
  question : String
  answer : String
  correct : Bool
  timestamp : ℤ
deriving DecidableEq

/-- An animal resident (gameStore.ts `Resident`). -/
structure Resident where
  id : String
  name : String
  emoji : String
  arrivalDate : String
deriving DecidableEq

/-- The five building kinds of gameStore.ts. -/
inductive BuildingType
  | house
  | cafe
  | farm
  | garden
  | fountain
deriving DecidableEq

/-- A village building (gameStore.ts `Building`). -/
structure Building where
  id : String
  type : BuildingType
  name : String
  emoji : String
  unlockLevel : ℤ
deriving DecidableEq

/-- The full game state held by useGameStore (gameStore.ts `GameState`). -/
structure GameState where
  steps : ℤ
  walkGoal : ℤ
  quizHistory : List QuizRecord
  dietScore : ℚ
  lastAnalyzedFoods : List String
  villageLevel : ℕ
  villageExp : ℤ
  residents : List Resident
  buildings : List Building
  fertilizer : ℤ
  landscapeItems : ℤ
  cafeScore : ℤ
  cafeStreak : ℤ
  streakDays : ℤ
deriving DecidableEq

/-- The initial store state from the create call in gameStore.ts. -/
def initialState : GameState where
  steps := 0
  walkGoal := 5000
  quizHistory := []
  dietScore := 0
  lastAnalyzedFoods := []
  villageLevel := 1
  villageExp := 0
  residents := []
  buildings := []
  fertilizer := 0
  landscapeItems := 0
  cafeScore := 0
  cafeStreak := 0
  streakDays := 0

/-- gameStore.ts `setSteps`. -/
def setSteps (s : GameState) (steps : ℤ) : GameState :=
  { s with steps := steps }

/-- gameStore.ts `addQuizRecord`. -/
def addQuizRecord (s : GameState) (record : QuizRecord) : GameState :=
  { s with quizHistory := s.quizHistory ++ [record] }

/-- gameStore.ts `setDietScore`. -/
def setDietScore (s : GameState) (score : ℚ) (foods : List String) : GameState :=
  { s with dietScore := score, lastAnalyzedFoods := foods }

/-- gameStore.ts `addFertilizer`. -/
def addFertilizer (s : GameState) (amount : ℤ) : GameState :=
  { s with fertilizer := s.fertilizer + amount }

/-- gameStore.ts `useFertilizer`: `Math.max(0, fertilizer - amount)`. -/
def useFertilizer (s : GameState) (amount : ℤ) : GameState :=
  { s with fertilizer := max 0 (s.fertilizer - amount) }

/-- gameStore.ts `addLandscapeItems`. -/
def addLandscapeItems (s : GameState) (amount : ℤ) : GameState :=
  { s with landscapeItems := s.landscapeItems + amount }

/-- gameStore.ts `addResident`. -/
def addResident (s : GameState) (resident : Resident) : GameState :=
  { s with residents := s.residents ++ [resident] }

/-- gameStore.ts `unlockBuilding` (skips ids already present). -/
def unlockBuilding (s : GameState) (building : Building) : GameState :=
  if s.buildings.any (fun b => b.id == building.id) then s
  else { s with buildings := s.buildings ++ [building] }

/-- gameStore.ts `addVillageExp`: adds experience and recomputes the level. -/
def addVillageExp (s : GameState) (exp : ℤ) : GameState :=
  let newExp := s.villageExp + exp
  { s with villageExp := newExp, villageLevel := calcVillageLevel newExp }

/-- gameStore.ts `addCafeScore`. -/
def addCafeScore (s : GameState) (points : ℤ) : GameState :=
  { s with cafeScore := s.cafeScore + points, cafeStreak := s.cafeStreak + 1 }

/-- gameStore.ts `resetCafeSession`. -/
def resetCafeSession (s : GameState) : GameState :=
  { s with cafeStreak := 0 }

/-- gameStore.ts `incrementStreak`. -/
def incrementStreak (s : GameState) : GameState :=
  { s with streakDays := s.streakDays + 1 }

/-- gameStore.ts `resetDailyStats`. -/
def resetDailyStats (s : GameState) : GameState :=
  { s with steps := 0, quizHistory := [], dietScore := 0,
           lastAnalyzedFoods := [], cafeScore := 0, cafeStreak := 0 }

/-- gameStore.ts `selectHealthScore`: today's composite health score. -/
def selectHealthScore (s : GameState) : ℤ :=
  jsRound (min ((s.steps : ℚ) / (s.walkGoal : ℚ)) 1 * 40
    + s.dietScore / 10 * 40
    + min ((s.cafeScore : ℚ) / 30) 1 * 20)

/-- The composite-score formula exactly as the spec words it, for the
refinement comparison with selectHealthScore. -/
def compositeScoreSpec (walkSteps walkGoal : ℤ) (dietScore : ℚ)
    (cafeScore : ℤ) : ℤ :=
  jsRound (min ((walkSteps : ℚ) / (walkGoal : ℚ)) 1 * 40
    + dietScore / 10 * 40
    + min ((cafeScore : ℚ) / 30) 1 * 20)

-- ─────────────────────────────────────────────
-- Reward calculator (healthService.ts)
-- ─────────────────────────────────────────────

/-- healthService.ts `calcFertilizer`: MIND score to fertilizer grant. -/
def calcFertilizer (mindScore : ℚ) : ℤ :=
  if 8 ≤ mindScore then 5
  else if 6 ≤ mindScore then 3
  else if 4 ≤ mindScore then 2
  else if 2 ≤ mindScore then 1
  else 0

/-- healthService.ts `calcLandscapeItems`: steps to landscape grant. -/
def calcLandscapeItems (steps : ℤ) : ℤ :=
  if 10000 ≤ steps then 3
  else if 7000 ≤ steps then 2
  else if 5000 ≤ steps then 1
  else 0

/-- One ledger operation of the mutation surface. -/
inductive Op
  | setSteps (steps : ℤ)
  | addQuizRecord (record : QuizRecord)
  | setDietScore (score : ℚ) (foods : List String)
  | addFertilizer (amount : ℤ)
  | useFertilizer (amount : ℤ)
  | addLandscapeItems (amount : ℤ)
  | addResident (resident : Resident)
  | unlockBuilding (building : Building)
  | addVillageExp (exp : ℤ)
  | addCafeScore (points : ℤ)
  | resetCafeSession
  | incrementStreak
  | resetDailyStats

/-- Apply one ledger operation. -/
def applyOp (s : GameState) : Op → GameState
  | .setSteps steps => setSteps s steps
  | .addQuizRecord record => addQuizRecord s record
  | .setDietScore score foods => setDietScore s score foods
  | .addFertilizer amount => addFertilizer s amount
  | .useFertilizer amount => useFertilizer s amount
  | .addLandscapeItems amount => addLandscapeItems s amount
  | .addResident resident => addResident s resident
  | .unlockBuilding building => unlockBuilding s building
  | .addVillageExp exp => addVillageExp s exp
  | .addCafeScore points => addCafeScore s points
  | .resetCafeSession => resetCafeSession s
  | .incrementStreak => incrementStreak s
  | .resetDailyStats => resetDailyStats s

/-- The stored level always equals the level engine of the stored exp. -/
def LevelInv (s : GameState) : Prop :=
  s.villageLevel = calcVillageLevel s.villageExp

lemma levelInv_initial : LevelInv initialState := by
  unfold LevelInv
  decide

lemma levelInv_applyOp (s : GameState) (op : Op) (h : LevelInv s) :
    LevelInv (applyOp s op) := by
  cases op <;>
    simp_all [LevelInv, applyOp, setSteps, addQuizRecord, setDietScore,
      addFertilizer, useFertilizer, addLandscapeItems, addResident,
      unlockBuilding, addVillageExp, addCafeScore, resetCafeSession,
      incrementStreak, resetDailyStats]
  split <;> simp [h]

lemma levelInv_foldl (ops : List Op) (s : GameState) (h : LevelInv s) :
    LevelInv (ops.foldl applyOp s) := by
  induction ops generalizing s with
  | nil => exact h
  | cons op rest ih => exact ih _ (levelInv_applyOp s op h)

/-- Operations whose amount argument is non-negative. -/
def NonNegOp : Op → Prop
  | .addFertilizer amount => 0 ≤ amount
  | .useFertilizer amount => 0 ≤ amount
  | .addLandscapeItems amount => 0 ≤ amount
  | _ => True

/-- Fertilizer and landscape-item counters are non-negative. -/
def ResourceInv (s : GameState) : Prop :=
  0 ≤ s.fertilizer ∧ 0 ≤ s.landscapeItems

lemma resourceInv_applyOp (s : GameState) (op : Op) (hop : NonNegOp op)
    (h : ResourceInv s) : ResourceInv (applyOp s op) := by
  obtain ⟨hf, hl⟩ := h
  cases op <;>
    simp_all [NonNegOp, ResourceInv, applyOp, setSteps, addQuizRecord,
      setDietScore, addFertilizer, useFertilizer, addLandscapeItems,
      addResident, unlockBuilding, addVillageExp, addCafeScore,
      resetCafeSession, incrementStreak, resetDailyStats] <;>
    first
      | omega
      | (constructor <;> omega)
      | (split <;> simp [hf, hl])

lemma resourceInv_foldl (ops : List Op) :
    (∀ op ∈ ops, NonNegOp op) → ∀ s : GameState, ResourceInv s →
    ResourceInv (ops.foldl applyOp s) := by
  induction ops with
  | nil => exact fun _ _ h => h
  | cons op rest ih =>
      intro hops s h
      exact ih (fun o ho => hops o (List.mem_cons_of_mem op ho)) _
        (resourceInv_applyOp s op (hops op (List.mem_cons_self op rest)) h)

/-- C3: the level engine is monotone in experience, maps 0 to level 1, and
never exceeds level 10. -/
theorem C3_level_engine_monotone_bounded :
    (∀ e1 e2 : ℤ, e1 ≤ e2 → calcVillageLevel e1 ≤ calcVillageLevel e2) ∧
    calcVillageLevel 0 = 1 ∧
    (∀ x : ℤ, calcVillageLevel x ≤ 10) := by
  refine ⟨?_, ?_, ?_⟩
  · intro e1 e2 h
    unfold calcVillageLevel
    exact min_le_min (calcLoop_mono h (List.range' 1 10) 1 (by decide)) le_rfl
  · decide
  · intro x
    exact Nat.min_le_right _ 10

/-- C3 witness: monotonicity applied at the concrete pair 0 ≤ 100. -/
theorem C3_level_engine_monotone_bounded_witness :
    (0 : ℤ) ≤ 100 ∧ calcVillageLevel 0 ≤ calcVillageLevel 100 :=
  ⟨by norm_num, C3_level_engine_monotone_bounded.1 0 100 (by norm_num)⟩

/-- C4: after any sequence of ledger operations applied to the initial
state, the stored village level equals the level engine applied to the
stored experience — the level is never stale. -/
theorem C4_village_level_never_stale (ops : List Op) :
    (ops.foldl applyOp initialState).villageLevel
      = calcVillageLevel (ops.foldl applyOp initialState).villageExp :=
  levelInv_foldl ops initialState levelInv_initial

/-- C8: with non-negative amounts, fertilizer and landscape items stay
non-negative after every sequence of operations from the initial state,
and spending clamps at zero: from fertilizer = 2, useFertilizer 5 yields
fertilizer = 0. -/
theorem C8_resources_never_negative :
    (∀ ops : List Op, (∀ op ∈ ops, NonNegOp op) →
      0 ≤ (ops.foldl applyOp initialState).fertilizer ∧
      0 ≤ (ops.foldl applyOp initialState).landscapeItems) ∧
    (∀ s : GameState, s.fertilizer = 2 → (useFertilizer s 5).fertilizer = 0) := by
  constructor
  · intro ops hops
    exact resourceInv_foldl ops hops initialState ⟨le_refl 0, le_refl 0⟩
  · intro s h
    simp [useFertilizer, h]

/-- C8 witness: the invariant after adding 2 then spending 5 fertilizer,
and the clamp at a concrete state with fertilizer = 2. -/
theorem C8_resources_never_negative_witness :
    (0 ≤ ([Op.addFertilizer 2, Op.useFertilizer 5].foldl applyOp
          initialState).fertilizer ∧
     0 ≤ ([Op.addFertilizer 2, Op.useFertilizer 5].foldl applyOp
          initialState).landscapeItems) ∧
    (useFertilizer { initialState with fertilizer := 2 } 5).fertilizer = 0 :=
  ⟨C8_resources_never_negative.1 [Op.addFertilizer 2, Op.useFertilizer 5]
      (by simp [List.forall_mem_cons, NonNegOp]),
   C8_resources_never_negative.2 { initialState with fertilizer := 2 } rfl⟩

/-- C10: resetDailyStats zeroes exactly the six daily fields and leaves
every other ledger field unchanged. -/
theorem C10_daily_reset_scope (s : GameState) :
    (resetDailyStats s).steps = 0 ∧
    (resetDailyStats s).quizHistory = [] ∧
    (resetDailyStats s).dietScore = 0 ∧
    (resetDailyStats s).lastAnalyzedFoods = [] ∧
    (resetDailyStats s).cafeScore = 0 ∧
    (resetDailyStats s).cafeStreak = 0 ∧
    (resetDailyStats s).villageExp = s.villageExp ∧
    (resetDailyStats s).villageLevel = s.villageLevel ∧
    (resetDailyStats s).fertilizer = s.fertilizer ∧
    (resetDailyStats s).landscapeItems = s.landscapeItems ∧
    (resetDailyStats s).residents = s.residents ∧
    (resetDailyStats s).buildings = s.buildings ∧
    (resetDailyStats s).streakDays = s.streakDays ∧
    (resetDailyStats s).walkGoal = s.walkGoal :=
  ⟨rfl, rfl, rfl, rfl, rfl, rfl, rfl, rfl, rfl, rfl, rfl, rfl, rfl, rfl⟩

/-- C6: the reward mappings are the spec table's step functions with
lower-inclusive boundaries, including the boundary examples. -/
theorem C6_reward_step_functions :
    (∀ q : ℚ, 8 ≤ q → calcFertilizer q = 5) ∧
    (∀ q : ℚ, 6 ≤ q → q < 8 → calcFertilizer q = 3) ∧
    (∀ q : ℚ, 4 ≤ q → q < 6 → calcFertilizer q = 2) ∧
    (∀ q : ℚ, 2 ≤ q → q < 4 → calcFertilizer q = 1) ∧
    (∀ q : ℚ, q < 2 → calcFertilizer q = 0) ∧
    (∀ n : ℤ, 10000 ≤ n → calcLandscapeItems n = 3) ∧
    (∀ n : ℤ, 7000 ≤ n → n < 10000 → calcLandscapeItems n = 2) ∧
    (∀ n : ℤ, 5000 ≤ n → n < 7000 → calcLandscapeItems n = 1) ∧
    (∀ n : ℤ, n < 5000 → calcLandscapeItems n = 0) ∧
    calcFertilizer (79 / 10) = 3 ∧ calcFertilizer 8 = 5 ∧
    calcLandscapeItems 4999 = 0 ∧ calcLandscapeItems 5000 = 1 ∧
    calcLandscapeItems 10000 = 3 := by
  refine ⟨?_, ?_, ?_, ?_, ?_, ?_, ?_, ?_, ?_, ?_, ?_, ?_, ?_, ?_⟩ <;>
    first
      | (intro q h
         unfold calcFertilizer
         split_ifs <;> first | rfl | linarith)
      | (intro q h1 h2
         unfold calcFertilizer
         split_ifs <;> first | rfl | linarith)
      | (intro n h
         unfold calcLandscapeItems
         split_ifs <;> first | rfl | omega)
      | norm_num [calcFertilizer, calcLandscapeItems]

/-- C6 witness: the step functions evaluated at concrete in-range inputs. -/
theorem C6_reward_step_functions_witness :
    ((8 : ℚ) ≤ 9 ∧ calcFertilizer 9 = 5) ∧
    ((10000 : ℤ) ≤ 12000 ∧ calcLandscapeItems 12000 = 3) :=
  ⟨⟨by norm_num, C6_reward_step_functions.1 9 (by norm_num)⟩,
   ⟨by norm_num,
    C6_reward_step_functions.2.2.2.2.2.1 12000 (by norm_num)⟩⟩

/-- C7: on the valid domain, the composite daily score equals the spec
formula and lies in [0, 100]; at the spec scenario it is 82. -/
theorem C7_composite_score :
    (∀ s : GameState, 0 ≤ s.steps → 0 < s.walkGoal → 0 ≤ s.dietScore →
      s.dietScore ≤ 10 → 0 ≤ s.cafeScore →
      selectHealthScore s
          = compositeScoreSpec s.steps s.walkGoal s.dietScore s.cafeScore ∧
        0 ≤ selectHealthScore s ∧ selectHealthScore s ≤ 100) ∧
    selectHealthScore
        { initialState with steps := 5000, dietScore := 8, cafeScore := 15 }
      = 82 := by
  constructor
  · intro s hsteps hgoal hdiet0 hdiet10 hcafe
    have hwg : (0 : ℚ) < (s.walkGoal : ℚ) := by exact_mod_cast hgoal
    have hwr0 : (0 : ℚ) ≤ min ((s.steps : ℚ) / (s.walkGoal : ℚ)) 1 :=
      le_min (div_nonneg (by exact_mod_cast hsteps) (le_of_lt hwg))
        zero_le_one
    have hwr1 : min ((s.steps : ℚ) / (s.walkGoal : ℚ)) 1 ≤ 1 :=
      min_le_right _ _
    have hdr0 : (0 : ℚ) ≤ s.dietScore / 10 :=
      div_nonneg hdiet0 (by norm_num)
    have hdr1 : s.dietScore / 10 ≤ 1 := by
      rw [div_le_one (by norm_num : (0 : ℚ) < 10)]
      linarith
    have hcr0 : (0 : ℚ) ≤ min ((s.cafeScore : ℚ) / 30) 1 :=
      le_min (div_nonneg (by exact_mod_cast hcafe) (by norm_num))
        zero_le_one
    have hcr1 : min ((s.cafeScore : ℚ) / 30) 1 ≤ 1 := min_le_right _ _
    refine ⟨rfl, ?_, ?_⟩
    · unfold selectHealthScore jsRound
      apply Int.le_floor.mpr
      push_cast
      linarith
    · unfold selectHealthScore jsRound
      have hlt : min ((s.steps : ℚ) / (s.walkGoal : ℚ)) 1 * 40
          + s.dietScore / 10 * 40
          + min ((s.cafeScore : ℚ) / 30) 1 * 20 + 1 / 2
          < ((101 : ℤ) : ℚ) := by
        push_cast
        linarith
      have := Int.floor_lt.mpr hlt
      omega
  · show jsRound (min (((5000 : ℤ) : ℚ) / ((5000 : ℤ) : ℚ)) 1 * 40
        + (8 : ℚ) / 10 * 40 + min (((15 : ℤ) : ℚ) / 30) 1 * 20) = 82
    unfold jsRound
    norm_num [min_def]

-- ─────────────────────────────────────────────
-- Pedometer service (pedometerService.ts)
-- ─────────────────────────────────────────────

/-- Daily walk goal (pedometerService.ts `WALK_GOAL`). -/
def WALK_GOAL : ℕ := 5000

/-- Quiz trigger interval in steps (pedometerService.ts `QUIZ_INTERVAL`). -/
def QUIZ_INTERVAL : ℕ := 1000

/-- Reward milestone (pedometerService.ts `REWARD_MILESTONE`). -/
def REWARD_MILESTONE : ℕ := 5000

/-- A walking quiz item (pedometerService.ts `WalkQuiz`). -/
structure WalkQuiz where
  id : String
  question : String
  choices : List String
  answer : String
  hint : Option String
deriving DecidableEq, Inhabited

/-- The built-in quiz catalog (pedometerService.ts `FALLBACK_QUIZZES`). -/
def FALLBACK_QUIZZES : List WalkQuiz :=
  [ { id := "q1", question := "대한민국의 수도는 어디일까요?",
      choices := ["부산", "서울", "대구", "인천"], answer := "서울",
      hint := some "서울은 조선 시대부터 600년 넘게 수도였어요." },
    { id := "q2", question := "사과가 영어로 무엇인가요?",
      choices := ["Banana", "Orange", "Apple", "Grape"], answer := "Apple",
      hint := some "A for Apple! 사과는 Apple이에요." },
    { id := "q3", question := "봄, 여름, 가을 다음은 무슨 계절인가요?",
      choices := ["봄", "여름", "가을", "겨울"], answer := "겨울",
      hint := some "한 해는 봄, 여름, 가을, 겨울 순서로 이어져요." },
    { id := "q4", question := "5 곱하기 7은 얼마인가요?",
      choices := ["30", "35", "40", "45"], answer := "35",
      hint := some "5 × 7 = 35예요. 구구단 5단이에요!" },
    { id := "q5", question := "하늘은 무슨 색인가요?",
      choices := ["빨간색", "노란색", "파란색", "초록색"], answer := "파란색",
      hint := some "맑은 날 하늘은 파란색이에요." },
    { id := "q6", question := "1년은 몇 개월인가요?",
      choices := ["10개월", "11개월", "12개월", "13개월"], answer := "12개월",
      hint := some "1월부터 12월까지 1년은 12개월이에요." },
    { id := "q7", question := "강아지 소리는 무엇인가요?",
      choices := ["야옹", "멍멍", "음메", "꼬끼오"], answer := "멍멍",
      hint := some "강아지는 멍멍, 고양이는 야옹이에요." },
    { id := "q8", question := "무지개의 색은 몇 가지인가요?",
      choices := ["5가지", "6가지", "7가지", "8가지"], answer := "7가지",
      hint := some "빨주노초파남보! 무지개는 7가지 색이에요." } ]

/-- The step payload handed to the step callback
(pedometerService.ts `StepUpdatePayload`). -/
structure StepUpdatePayload where
  steps : ℕ
  progress : ℤ
  goalReached : Bool
  quizTrigger : Bool
deriving DecidableEq

/-- pedometerService.ts `_handleStepUpdate`: from the previous
`lastQuizMilestone` and the sensor steps, produce the payload, the
milestone handed to the quiz callback (if any), and the new
`lastQuizMilestone`. -/
def handleStepUpdate (lastQuizMilestone steps : ℕ) :
    StepUpdatePayload × Option ℕ × ℕ :=
  let progress : ℤ := min (jsRound ((steps : ℚ) / (WALK_GOAL : ℚ) * 100)) 100
  let goalReached : Bool := decide (steps ≥ REWARD_MILESTONE)
  let currentMilestone := steps / QUIZ_INTERVAL * QUIZ_INTERVAL
  let quizTrigger : Bool :=
    decide (currentMilestone > lastQuizMilestone ∧ currentMilestone > 0)
  ({ steps := steps, progress := progress, goalReached := goalReached,
     quizTrigger := quizTrigger },
   if quizTrigger then some currentMilestone else none,
   if quizTrigger then currentMilestone else lastQuizMilestone)

/-- pedometerService.ts `getRandomQuiz`; `rand` abstracts the value of
`Math.floor(Math.random() * available.length)` as an arbitrary natural
taken modulo the available count. When every catalog item has been used,
the code clears `usedQuizIds` and returns `FALLBACK_QUIZZES[0]`. -/
def getRandomQuiz (usedQuizIds : List String) (rand : ℕ) :
    WalkQuiz × List String :=
  let available := FALLBACK_QUIZZES.filter (fun q => decide (q.id ∉ usedQuizIds))
  if available.isEmpty then
    (FALLBACK_QUIZZES.getD 0 default, [])
  else
    let quiz := available.getD (rand % available.length) default
    (quiz, usedQuizIds ++ [quiz.id])

/-- The wrap-around pick as the spec words it: upon exhaustion, pick
uniformly at random from the full catalog (the same random draw `rand`
indexes the full catalog rather than returning the first item). -/
def wrapPickSpec (rand : ℕ) : WalkQuiz :=
  FALLBACK_QUIZZES.getD (rand % FALLBACK_QUIZZES.length) default

/-- Drawing a sequence of quizzes, threading `usedQuizIds`. -/
def drawQuizzes : List ℕ → List String → List WalkQuiz × List String
  | [], used => ([], used)
  | r :: rs, used =>
    let p := getRandomQuiz used r
    let rest := drawQuizzes rs p.2
    (p.1 :: rest.1, rest.2)

/-- The catalog ids. -/
def quizIds : List String := FALLBACK_QUIZZES.map WalkQuiz.id


lemma handleStepUpdate_self (steps : ℕ) :
    (handleStepUpdate (steps / QUIZ_INTERVAL * QUIZ_INTERVAL) steps).1.quizTrigger
      = false :=
  decide_eq_false (fun hh => lt_irrefl _ hh.1)

/-- C1: the milestone scheduler fires iff
`candidate = floor(steps / interval) * interval` exceeds the last fired
milestone and is positive; on firing it emits exactly the candidate (the
highest crossed boundary) and stores it as the new last milestone;
otherwise it emits nothing and keeps the old milestone; and a repeated
observation of the same step count never fires again. -/
theorem C1_milestone_scheduler (last steps : ℕ) :
    ((handleStepUpdate last steps).1.quizTrigger = true
        ↔ steps / QUIZ_INTERVAL * QUIZ_INTERVAL > last
          ∧ steps / QUIZ_INTERVAL * QUIZ_INTERVAL > 0) ∧
    ((handleStepUpdate last steps).1.quizTrigger = true →
      (handleStepUpdate last steps).2.1
          = some (steps / QUIZ_INTERVAL * QUIZ_INTERVAL) ∧
      (handleStepUpdate last steps).2.2
          = steps / QUIZ_INTERVAL * QUIZ_INTERVAL) ∧
    ((handleStepUpdate last steps).1.quizTrigger = false →
      (handleStepUpdate last steps).2.1 = none ∧
      (handleStepUpdate last steps).2.2 = last) ∧
    (handleStepUpdate (handleStepUpdate last steps).2.2 steps).1.quizTrigger
      = false := by
  refine ⟨Eq.to_iff decide_eq_true_eq, ?_, ?_, ?_⟩
  · intro ht
    exact ⟨if_pos ht, if_pos ht⟩
  · intro hf
    have hf2 : decide (steps / QUIZ_INTERVAL * QUIZ_INTERVAL > last
        ∧ steps / QUIZ_INTERVAL * QUIZ_INTERVAL > 0) = false := hf
    exact ⟨if_neg (fun hh => Bool.false_ne_true (hf2 ▸ hh)),
      if_neg (fun hh => Bool.false_ne_true (hf2 ▸ hh))⟩
  · by_cases h : steps / QUIZ_INTERVAL * QUIZ_INTERVAL > last
        ∧ steps / QUIZ_INTERVAL * QUIZ_INTERVAL > 0
    · have h22 : (handleStepUpdate last steps).2.2
          = steps / QUIZ_INTERVAL * QUIZ_INTERVAL :=
        if_pos (decide_eq_true h)
      rw [h22]
      exact handleStepUpdate_self steps
    · have h22 : (handleStepUpdate last steps).2.2 = last :=
        if_neg (fun hh => h (of_decide_eq_true hh))
      rw [h22]
      exact decide_eq_false h

/-- C1 witness: after lastFired = 1000, an observation of 2600 fires once,
for boundary 2000 only, stores 2000, and a repeated observation does not
fire; an observation of 999 from a fresh scheduler never fires. -/
theorem C1_milestone_scheduler_witness :
    (handleStepUpdate 1000 2600).1.quizTrigger = true ∧
    (handleStepUpdate 1000 2600).2.1 = some 2000 ∧
    (handleStepUpdate 1000 2600).2.2 = 2000 ∧
    (handleStepUpdate (handleStepUpdate 1000 2600).2.2 2600).1.quizTrigger
      = false ∧
    (handleStepUpdate 0 999).1.quizTrigger = false := by
  have h := C1_milestone_scheduler 1000 2600
  have h999 := C1_milestone_scheduler 0 999
  have hfire : (handleStepUpdate 1000 2600).1.quizTrigger = true :=
    h.1.mpr (by decide)
  refine ⟨hfire, (h.2.1 hfire).1, (h.2.1 hfire).2, h.2.2.2, ?_⟩
  cases hb : (handleStepUpdate 0 999).1.quizTrigger with
  | false => rfl
  | true => exact absurd (h999.1.mp hb) (by decide)

lemma quizIds_nodup : quizIds.Nodup := by decide

lemma available_ne_nil (used : List String) (hlen : used.length < 8) :
    FALLBACK_QUIZZES.filter (fun q => decide (q.id ∉ used)) ≠ [] := by
  intro hempty
  have hsub : quizIds ⊆ used := by
    intro x hx
    rw [quizIds, List.mem_map] at hx
    obtain ⟨q, hq, rfl⟩ := hx
    by_contra hnot
    have hmem : q ∈ FALLBACK_QUIZZES.filter (fun q => decide (q.id ∉ used)) := by
      rw [List.mem_filter]
      exact ⟨hq, by simpa using hnot⟩
    rw [hempty] at hmem
    exact absurd hmem (List.not_mem_nil q)
  have h1 : quizIds.toFinset.card = 8 := by decide
  have h2 : quizIds.toFinset ⊆ used.toFinset := by
    intro x hx
    rw [List.mem_toFinset] at hx ⊢
    exact hsub hx
  have h3 : used.toFinset.card ≤ used.length := used.toFinset_card_le
  have h4 := Finset.card_le_card h2
  omega

lemma drawQuizzes_spec : ∀ (rs : List ℕ) (used : List String),
    used.Nodup → used ⊆ quizIds → used.length + rs.length ≤ 8 →
    (drawQuizzes rs used).2
        = used ++ ((drawQuizzes rs used).1.map WalkQuiz.id) ∧
    (drawQuizzes rs used).2.Nodup := by
  intro rs
  induction rs with
  | nil =>
      intro used h1 _ _
      exact ⟨by simp [drawQuizzes], h1⟩
  | cons r rest ih =>
      intro used hnd hsub hlen
      have hav : FALLBACK_QUIZZES.filter (fun q => decide (q.id ∉ used)) ≠ [] :=
        available_ne_nil used (by simp at hlen; omega)
      have hlenpos :
          0 < (FALLBACK_QUIZZES.filter (fun q => decide (q.id ∉ used))).length :=
        List.length_pos.mpr hav
      have hidx :
          r % (FALLBACK_QUIZZES.filter (fun q => decide (q.id ∉ used))).length
            < (FALLBACK_QUIZZES.filter (fun q => decide (q.id ∉ used))).length :=
        Nat.mod_lt _ hlenpos
      have hqmem :
          (FALLBACK_QUIZZES.filter (fun q => decide (q.id ∉ used))).getD
              (r % (FALLBACK_QUIZZES.filter
                (fun q => decide (q.id ∉ used))).length) default
            ∈ FALLBACK_QUIZZES.filter (fun q => decide (q.id ∉ used)) := by
        rw [List.getD_eq_getElem _ _ hidx]
        exact List.getElem_mem _
      set q := (FALLBACK_QUIZZES.filter (fun q => decide (q.id ∉ used))).getD
          (r % (FALLBACK_QUIZZES.filter
            (fun q => decide (q.id ∉ used))).length) default with hqdef
      have hqFall : q ∈ FALLBACK_QUIZZES := (List.mem_filter.mp hqmem).1
      have hqnot : q.id ∉ used := by
        have := (List.mem_filter.mp hqmem).2
        simpa using this
      have hgr : getRandomQuiz used r = (q, used ++ [q.id]) := by
        rw [getRandomQuiz]
        rw [if_neg (by simpa [List.isEmpty_iff] using hav)]
      have hnd2 : (used ++ [q.id]).Nodup := by
        simp [List.nodup_append, hnd, hqnot]
      have hsub2 : (used ++ [q.id]) ⊆ quizIds := by
        intro x hx
        rcases List.mem_append.mp hx with hx | hx
        · exact hsub hx
        · rw [List.mem_singleton] at hx
          subst hx
          exact List.mem_map_of_mem WalkQuiz.id hqFall
      have hlen2 : (used ++ [q.id]).length + rest.length ≤ 8 := by
        simp at hlen ⊢
        omega
      obtain ⟨iheq, ihnd⟩ := ih (used ++ [q.id]) hnd2 hsub2 hlen2
      constructor
      · show (drawQuizzes (r :: rest) used).2
            = used ++ ((drawQuizzes (r :: rest) used).1.map WalkQuiz.id)
        simp only [drawQuizzes, hgr]
        rw [iheq]
        simp
      · show (drawQuizzes (r :: rest) used).2.Nodup
        simp only [drawQuizzes, hgr]
        exact ihnd

/-- C5 (amended): drawing N = catalog size items from an empty used set
yields N distinct ids, and on the draw where the unused set is empty the
bank clears usedQuizIds and returns the first catalog item (a total
function — it never throws). -/
theorem C5_quiz_bank_no_duplicates :
    (∀ rs : List ℕ, rs.length = FALLBACK_QUIZZES.length →
      ((drawQuizzes rs []).1.map WalkQuiz.id).Nodup) ∧
    (∀ (used : List String) (rand : ℕ),
      FALLBACK_QUIZZES.filter (fun q => decide (q.id ∉ used)) = [] →
      getRandomQuiz used rand = (FALLBACK_QUIZZES.getD 0 default, [])) := by
  constructor
  · intro rs hlen
    have h := drawQuizzes_spec rs [] List.nodup_nil (List.nil_subset _)
      (by rw [hlen]; rfl)
    obtain ⟨heq, hnd⟩ := h
    rw [heq] at hnd
    simpa using hnd
  · intro used rand hempty
    rw [getRandomQuiz]
    rw [if_pos (by simp only [List.isEmpty_iff]; exact hempty)]

/-- C5 counterexample: the claim says the wrap-around draw picks uniformly
at random from the full catalog; in the code it deterministically returns
the first catalog item. With every id used and random draw index 1, a
uniform pick selects the item with id q2, but getRandomQuiz returns the
item with id q1 — and it returns the same item for every random draw. -/
theorem C5_quiz_bank_counterexample :
    (getRandomQuiz quizIds 1).1.id = "q1" ∧
    (wrapPickSpec 1).id = "q2" ∧
    (getRandomQuiz quizIds 1).1.id ≠ (wrapPickSpec 1).id ∧
    (getRandomQuiz quizIds 1).1 = (getRandomQuiz quizIds 5).1 := by
  refine ⟨?_, ?_, ?_, ?_⟩ <;> decide

/-- C5 witness: eight draws with arbitrary random values give eight
distinct ids, and the exhausted draw returns catalog item q1 with the
used set cleared. -/
theorem C5_quiz_bank_no_duplicates_witness :
    ((drawQuizzes [0, 1, 2, 3, 4, 5, 6, 7] []).1.map WalkQuiz.id).Nodup ∧
    getRandomQuiz quizIds 3 = (FALLBACK_QUIZZES.getD 0 default, []) :=
  ⟨C5_quiz_bank_no_duplicates.1 [0, 1, 2, 3, 4, 5, 6, 7] rfl,
   C5_quiz_bank_no_duplicates.2 quizIds 3 (by decide)⟩

-- ─────────────────────────────────────────────
-- Walk session reward guard (app/(tabs)/walk.tsx)
-- ─────────────────────────────────────────────

/-- The session state seen by the startTracking callbacks of walk.tsx:
the game store plus the rewardGivenRef boolean. -/
structure WalkTabSession where
  store : GameState
  rewardGiven : Bool

/-- The step-update callback registered by startTracking in walk.tsx.
`newSteps` is the session-relative count delivered by the pedometer
subscription; the payload flag `goalReached` computed in
`_handleStepUpdate` is `steps ≥ REWARD_MILESTONE`. The callback stores
the steps, and on a goal-reaching update with the guard still clear it
sets the guard and grants one landscape item. -/
def walkStepCallback (w : WalkTabSession) (newSteps : ℕ) : WalkTabSession :=
  let s1 := setSteps w.store (newSteps : ℤ)
  if REWARD_MILESTONE ≤ newSteps ∧ w.rewardGiven = false then
    { store := addLandscapeItems s1 1, rewardGiven := true }
  else
    { store := s1, rewardGiven := w.rewardGiven }

/-- walk.tsx `startTracking`: clears the per-session reward guard before
subscribing. -/
def startTracking (s : GameState) : WalkTabSession :=
  { store := s, rewardGiven := false }

/-- A whole walking session: start, then process the ticks in order. -/
def runWalkSession (s : GameState) (ticks : List ℕ) : WalkTabSession :=
  ticks.foldl walkStepCallback (startTracking s)

lemma walk_foldl : ∀ (ticks : List ℕ) (w : WalkTabSession),
    (ticks.foldl walkStepCallback w).rewardGiven
        = (w.rewardGiven || ticks.any (fun t => decide (REWARD_MILESTONE ≤ t))) ∧
    (ticks.foldl walkStepCallback w).store.landscapeItems
        = w.store.landscapeItems
          + (if w.rewardGiven = false
                ∧ ticks.any (fun t => decide (REWARD_MILESTONE ≤ t)) = true
             then 1 else 0) := by
  intro ticks
  induction ticks with
  | nil =>
      intro w
      simp
  | cons t rest ih =>
      intro w
      rw [List.foldl_cons]
      obtain ⟨ih1, ih2⟩ := ih (walkStepCallback w t)
      rw [ih1, ih2]
      by_cases ht : REWARD_MILESTONE ≤ t
      · by_cases hg : w.rewardGiven = false
        · rw [walkStepCallback, if_pos ⟨ht, hg⟩]
          simp [addLandscapeItems, setSteps, hg, ht]
        · have hgt : w.rewardGiven = true := by
            cases hb : w.rewardGiven
            · exact absurd hb hg
            · rfl
          rw [walkStepCallback, if_neg (fun hh => hg hh.2)]
          simp [setSteps, ht, hgt]
      · rw [walkStepCallback, if_neg (fun hh => ht hh.1)]
        simp [setSteps, ht]

/-- C2: within one walking session the terminal goal reward is granted
exactly once — the landscape counter gains 1 iff some tick reaches the
goal, the guard is exactly the reached flag, the guard starts cleared,
and once some tick has reached the goal, delivering further (even stale)
ticks grants nothing more. -/
theorem C2_walk_reward_granted_once (s : GameState) (ticks : List ℕ) :
    (runWalkSession s ticks).store.landscapeItems
        = s.landscapeItems
          + (if ticks.any (fun t => decide (REWARD_MILESTONE ≤ t)) = true
             then 1 else 0) ∧
    (runWalkSession s ticks).rewardGiven
        = ticks.any (fun t => decide (REWARD_MILESTONE ≤ t)) ∧
    (startTracking s).rewardGiven = false ∧
    (∀ more : List ℕ,
      ticks.any (fun t => decide (REWARD_MILESTONE ≤ t)) = true →
      (runWalkSession s (ticks ++ more)).store.landscapeItems
        = (runWalkSession s ticks).store.landscapeItems) := by
  have h := walk_foldl ticks (startTracking s)
  unfold runWalkSession
  refine ⟨?_, ?_, rfl, ?_⟩
  · rw [h.2]
    simp [startTracking]
  · rw [h.1]
    simp [startTracking]
  · intro more hany
    have h2 := walk_foldl (ticks ++ more) (startTracking s)
    rw [h2.2, h.2]
    simp [startTracking, List.any_append, hany]

/-- C2 witness: the scenario ticks 500, 1000, 5000 reach the goal; a
further stale tick 5500 does not change the landscape counter. -/
theorem C2_walk_reward_granted_once_witness :
    ([500, 1000, 5000].any (fun t => decide (REWARD_MILESTONE ≤ t)) = true) ∧
    (runWalkSession initialState ([500, 1000, 5000] ++ [5500])).store.landscapeItems
      = (runWalkSession initialState [500, 1000, 5000]).store.landscapeItems :=
  ⟨by decide,
   (C2_walk_reward_granted_once initialState [500, 1000, 5000]).2.2.2 [5500]
     (by decide)⟩

-- ─────────────────────────────────────────────
-- TTS completion/error handling (cafe.tsx, CafeScreen.tsx)
-- ─────────────────────────────────────────────

/-- The terminal signal expo-speech delivers for a playback. -/
inductive TtsSignal
  | done
  | error
deriving DecidableEq

/-- The callback options a speak call registers; an absent callback means
the signal is dropped. -/
structure SpeechCallbacks (σ : Type) where
  onDone : Option (σ → σ)
  onError : Option (σ → σ)

/-- Deliver the terminal signal: run the matching registered callback, or
leave the state unchanged when none is registered. -/
def dispatchSignal {σ : Type} (cbs : SpeechCallbacks σ) (sig : TtsSignal)
    (s : σ) : σ :=
  match sig with
  | .done => (cbs.onDone.getD id) s
  | .error => (cbs.onError.getD id) s

/-- The game phases of cafe.tsx (`GamePhase`). -/
inductive GamePhase
  | ready
  | ordering
  | distracted
  | choosing
  | feedback
  | result
deriving DecidableEq

/-- The part of the cafe.tsx component state the speak helper touches. -/
structure CafeTabState where
  phase : GamePhase
  isSpeaking : Bool
deriving DecidableEq

/-- cafe.tsx `speak`: sets isSpeakingRef and registers only onDone, which
clears the flag and runs the continuation. No onError is registered. -/
def cafeSpeakCallbacks (onDone : CafeTabState → CafeTabState) :
    SpeechCallbacks CafeTabState where
  onDone := some (fun s => onDone { s with isSpeaking := false })
  onError := none

/-- The continuation startRound passes to speak for the order TTS:
advance to the distracted phase. -/
def orderingContinuation (s : CafeTabState) : CafeTabState :=
  { s with phase := .distracted }

/-- The phases of CafeScreen.tsx. -/
inductive CafePhase
  | customer
  | ordering
  | distractor
  | selecting
  | feedback
  | complete
deriving DecidableEq

/-- The part of the CafeScreen.tsx state its TTS callbacks touch. -/
structure CafeScreenState where
  phase : CafePhase
  isSpeaking : Bool
  showDistractor : Bool
deriving DecidableEq

/-- CafeScreen.tsx `showDistractorDialog`: show the overlay and move to
the distractor phase. -/
def showDistractorDialog (s : CafeScreenState) : CafeScreenState :=
  { s with showDistractor := true, phase := .distractor }

/-- CafeScreen.tsx `handleListen` speak options: onDone clears the
speaking flag and (after a timer) shows the distractor dialog; onError
clears the flag and shows the distractor dialog immediately. -/
def handleListenCallbacks : SpeechCallbacks CafeScreenState where
  onDone := some (fun s => showDistractorDialog { s with isSpeaking := false })
  onError := some (fun s => showDistractorDialog { s with isSpeaking := false })

/-- CafeScreen.tsx distractor speak options: onDone moves (after a timer)
to the selecting phase; onError moves there immediately. -/
def distractorCallbacks : SpeechCallbacks CafeScreenState where
  onDone := some (fun s => { s with phase := .selecting })
  onError := some (fun s => { s with phase := .selecting })

/-- C9 counterexample: in cafe.tsx, the speak helper registers no onError
callback, so in the ordering state an Error signal leaves the machine
stalled (state unchanged, still marked speaking) while Done advances to
the distracted phase — Error and Done do not lead to the same successor. -/
theorem C9_tts_error_counterexample :
    dispatchSignal (cafeSpeakCallbacks orderingContinuation) .error
        { phase := .ordering, isSpeaking := true }
      = { phase := .ordering, isSpeaking := true } ∧
    dispatchSignal (cafeSpeakCallbacks orderingContinuation) .done
        { phase := .ordering, isSpeaking := true }
      = { phase := .distracted, isSpeaking := false } ∧
    dispatchSignal (cafeSpeakCallbacks orderingContinuation) .error
        { phase := .ordering, isSpeaking := true }
      ≠ dispatchSignal (cafeSpeakCallbacks orderingContinuation) .done
        { phase := .ordering, isSpeaking := true } := by
  refine ⟨rfl, rfl, ?_⟩
  decide

/-- C9 (amended): in the CafeScreen.tsx handlers an Error signal reaches
the same successor state as Done (up to the completion timers), so those
sessions cannot stall; in the cafe.tsx speak helper, however, no onError
callback is registered, so an Error signal leaves the waiting state
unchanged. -/
theorem C9_tts_error_treated_as_done :
    (∀ s : CafeScreenState,
      dispatchSignal handleListenCallbacks .error s
        = dispatchSignal handleListenCallbacks .done s) ∧
    (∀ s : CafeScreenState,
      dispatchSignal distractorCallbacks .error s
        = dispatchSignal distractorCallbacks .done s) ∧
    (∀ (f : CafeTabState → CafeTabState) (s : CafeTabState),
      dispatchSignal (cafeSpeakCallbacks f) .error s = s) :=
  ⟨fun _ => rfl, fun _ => rfl, fun _ _ => rfl⟩

/-- C7 witness: the composite-score property at the spec scenario state
(5000 of 5000 steps, diet 8, cafe 15). -/
theorem C7_composite_score_witness :
    (0 : ℤ) ≤ 5000 ∧
    (selectHealthScore
          { initialState with steps := 5000, dietScore := 8, cafeScore := 15 }
        = compositeScoreSpec 5000 5000 8 15 ∧
      0 ≤ selectHealthScore
          { initialState with steps := 5000, dietScore := 8, cafeScore := 15 } ∧
      selectHealthScore
          { initialState with steps := 5000, dietScore := 8, cafeScore := 15 }
        ≤ 100) :=
  ⟨by norm_num,
   C7_composite_score.1
     { initialState with steps := 5000, dietScore := 8, cafeScore := 15 }
     (by decide) (by decide) (by decide) (by decide) (by decide)⟩
